import Mathlib

/-!
Shallow embedding of the pos-stripe-backend Express handlers.

The repository contains three variants of the same server:
the primary server (src/index.js, first document, lines 1-534),
a secondary server (src/index.js, second document, lines 535-751),
and a serverless variant (src/unnamed/part_000).  Pure request-handling
logic is translated directly; calls into the remote payments gateway are
modelled by explicit oracle arguments (the result the gateway would
return), and the sequence of gateway calls a handler issues is returned
as an explicit trace list.
-/

set_option autoImplicit false

namespace PosStripe

/-- A JavaScript number: NaN, the two infinities, or a finite value.
Finite doubles are modelled by their exact rational value. -/
inductive JSNum where
  | nan
  | posInf
  | negInf
  | fin (q : ℚ)
deriving DecidableEq, Repr

/-- JS truthiness of a number: NaN, 0 and -0 are falsy. -/
def jsTruthyNum : JSNum → Bool
  | .nan => false
  | .posInf => true
  | .negInf => true
  | .fin q => decide (q ≠ 0)

/-- The JS comparison `x <= 0`.  NaN compares false; -Infinity <= 0 is true. -/
def jsLeZero : JSNum → Bool
  | .nan => false
  | .posInf => false
  | .negInf => true
  | .fin q => decide (q ≤ 0)

/-- `Number.isFinite`. -/
def jsIsFinite : JSNum → Bool
  | .fin _ => true
  | _ => false

/-- Floor of a rational, computed by floor division of numerator by
denominator (the denominator is positive). -/
def ratFloor (q : ℚ) : ℤ :=
  Int.fdiv q.num (q.den : ℤ)

/-- JS `Math.round`: round half toward positive infinity, i.e.
`floor (x + 1/2)` on finite values; NaN and the infinities are fixed. -/
def jsRound : JSNum → JSNum
  | .nan => .nan
  | .posInf => .posInf
  | .negInf => .negInf
  | .fin q => .fin ((ratFloor (q + 1/2) : ℚ))

/-- JS multiplication by the literal 100 (`amount * 100`). -/
def jsMul100 : JSNum → JSNum
  | .nan => .nan
  | .posInf => .posInf
  | .negInf => .negInf
  | .fin q => .fin (q * 100)

/-- A JSON value as it can appear in a parsed request body field.
`undef` stands for an absent field (JS `undefined`). -/
inductive JSValue where
  | undef
  | null
  | bool (b : Bool)
  | num (n : JSNum)
  | str (s : String)
deriving DecidableEq, Repr

/-- JS truthiness of a body field value. -/
def JSValue.truthy : JSValue → Bool
  | .undef => false
  | .null => false
  | .bool b => b
  | .num n => jsTruthyNum n
  | .str s => decide (s ≠ "")

/-- The part of an HTTP response the claims are about: the status code and
the `error` field of the JSON body (none when the body has no such field). -/
structure Resp where
  status : Nat
  error : Option String
deriving DecidableEq, Repr

/-- An error thrown by the gateway client: its `code` property (absent on
plain exceptions such as TypeError) and its message. -/
structure StripeError where
  code : Option String
  message : String
deriving DecidableEq, Repr

/-- The fixed response every guarded handler returns when the gateway
client failed to initialize at startup. -/
def stripeNotInitResp : Resp :=
  ⟨500, some "Stripe is not initialized. Please check your configuration."⟩

/-! ## POST /api/create-location (src/index.js lines 83-122) -/

/-- The six body fields read by the create-location handler.
A field that is absent from the JSON body is `JSValue.undef`. -/
structure LocationBody where
  label : JSValue
  line1 : JSValue
  city : JSValue
  state : JSValue
  country : JSValue
  postal_code : JSValue
deriving DecidableEq, Repr

/-- The validation test of the handler:
`!label || !line1 || !city || !state || !country || !postal_code`. -/
def locationFieldsMissing (b : LocationBody) : Bool :=
  !b.label.truthy || !b.line1.truthy || !b.city.truthy ||
  !b.state.truthy || !b.country.truthy || !b.postal_code.truthy

/-- Whether at least one of the six fields is absent from the body. -/
def locationFieldAbsent (b : LocationBody) : Bool :=
  b.label == JSValue.undef || b.line1 == JSValue.undef ||
  b.city == JSValue.undef || b.state == JSValue.undef ||
  b.country == JSValue.undef || b.postal_code == JSValue.undef

/-- POST /api/create-location.  `gw` is the outcome of
`stripe.terminal.locations.create` when reached. -/
def createLocation (stripeInit : Bool) (b : LocationBody)
    (gw : Except StripeError Unit) : Resp :=
  if !stripeInit then stripeNotInitResp
  else if locationFieldsMissing b then
    ⟨400, some "Missing required address fields"⟩
  else
    match gw with
    | .ok _ => ⟨200, none⟩
    | .error e =>
      if e.code == some "invalid_request_error" then
        ⟨400, some "Invalid address information provided"⟩
      else
        ⟨500, some "Failed to create location"⟩

/-! ## GET /api/invoices (src/index.js lines 382-403) -/

/-- An invoice as far as the sorting logic reads it. -/
structure Invoice where
  id : String
  status : String
deriving DecidableEq, Repr

/-- The `statusOrder` object literal of the handler. -/
def statusOrder : List (String × Int) :=
  [("open", 0), ("draft", 1), ("uncollectible", 2), ("paid", 3), ("void", 4)]

/-- JS property lookup `statusOrder[s]`: the value, or undefined (none). -/
def statusOrderLookup (s : String) : Option Int :=
  (statusOrder.find? (fun kv => kv.1 == s)).map (fun kv => kv.2)

/-- JS `v || d` on a number-or-undefined: both `undefined` and `0` are
falsy, so the default wins for them. -/
def jsOrDefault (v : Option Int) (d : Int) : Int :=
  match v with
  | some x => if x = 0 then d else x
  | none => d

/-- The sort comparator of the handler:
`(statusOrder[b.status] || 99) - (statusOrder[a.status] || 99)`. -/
def invoiceCmp (a b : Invoice) : Int :=
  jsOrDefault (statusOrderLookup b.status) 99 -
    jsOrDefault (statusOrderLookup a.status) 99

/-- Insert `x` into an already comparator-sorted list, after every element
it does not strictly precede (so elements arriving later stay after ties,
matching the stability mandated for `Array.prototype.sort`). -/
def insertByCmp {α : Type} (cmp : α → α → Int) (x : α) : List α → List α
  | [] => [x]
  | y :: ys => if cmp x y < 0 then x :: y :: ys else y :: insertByCmp cmp x ys

/-- A stable comparator sort: the ECMAScript `Array.prototype.sort`
result for a consistent comparator. -/
def jsStableSort {α : Type} (cmp : α → α → Int) (l : List α) : List α :=
  l.foldl (fun acc x => insertByCmp cmp x acc) []

/-- The body of GET /api/invoices: `invoices.data.sort(comparator)`. -/
def sortInvoices (l : List Invoice) : List Invoice :=
  jsStableSort invoiceCmp l

/-! ## POST /api/create-payment-intent
(primary handler src/index.js lines 161-224; secondary handler
src/index.js lines 638-667 and src/unnamed/part_000 lines 103-128) -/

/-- Lookup in a metadata object modelled as an association list of
string-valued properties; absent keys read as undefined (none). -/
def metaLookup (md : List (String × String)) (k : String) : Option String :=
  ((md.reverse).find? (fun kv => kv.1 == k)).map (fun kv => kv.2)

/-- JS truthiness of a possibly-undefined string property. -/
def strTruthy : Option String → Bool
  | none => false
  | some s => decide (s ≠ "")

/-- The object `\x7b ...metadata, name: email \x7d`: all supplied
metadata entries, with the `name` property overwritten by `email`
(association-list representation, lookup-equivalent to the JS spread). -/
def spreadSetName (md : List (String × String)) (email : String) :
    List (String × String) :=
  (md.filter (fun kv => kv.1 ≠ "name")) ++ [("name", email)]

/-- The parameter object passed to `stripe.paymentIntents.create` by the
create-payment-intent handlers (the constant fields `currency`,
`payment_method_types` and the blank `shipping` block are omitted because
no claim reads them). -/
structure PICreateParams where
  amount : JSNum
  metadata : List (String × String)
  receipt_email : Option String
  customer : Option String
deriving DecidableEq, Repr

/-- A gateway call issued by a handler, recorded in request order. -/
inductive GatewayCall where
  | customersCreate (email : String) (name : String)
  | paymentIntentsCreate (p : PICreateParams)
  | paymentIntentsRetrieve (id : String)
  | readersCancelAction (readerId : String)
  | paymentIntentsCancel (id : String)
deriving DecidableEq, Repr

/-- Whether a recorded gateway call is a customer creation. -/
def GatewayCall.isCustomersCreate : GatewayCall → Bool
  | .customersCreate _ _ => true
  | _ => false

/-- The catch block of the primary create-payment-intent handler:
code `parameter_invalid_integer` maps to 400, anything else to 500. -/
def piCatchResp (e : StripeError) : Resp :=
  if e.code == some "parameter_invalid_integer" then
    ⟨400, some "Invalid amount provided"⟩
  else
    ⟨500, some "Failed to create payment intent"⟩

/-- The primary POST /api/create-payment-intent handler
(src/index.js lines 161-224).  `amount` is the numeric `amount` body
field (none when absent), `metadata` the `metadata` body field (none when
absent), `gwCustomer` the outcome of `stripe.customers.create` and
`gwIntent` the outcome of `stripe.paymentIntents.create`.  Returns the
response together with the trace of gateway calls issued, in order.
When `metadata` is absent, the destructuring
`const \x7b name, email \x7d = metadata` throws a TypeError, which the
catch block (whose `error.code` is then undefined) turns into the
generic 500 response. -/
def createPaymentIntentMain (stripeInit : Bool) (amount : Option JSNum)
    (metadata : Option (List (String × String)))
    (gwCustomer : Except StripeError String)
    (gwIntent : Except StripeError (String × String)) :
    Resp × List GatewayCall :=
  if !stripeInit then (stripeNotInitResp, [])
  else
    match metadata with
    | none => (⟨500, some "Failed to create payment intent"⟩, [])
    | some md =>
      let name := metaLookup md "name"
      let email := metaLookup md "email"
      if !strTruthy name || !strTruthy email then
        (⟨400, some "Customer email and name is required"⟩, [])
      else if !(match amount with
                | none => false
                | some a => jsTruthyNum a) ||
              jsLeZero (amount.getD JSNum.nan) then
        (⟨400, some "Valid amount is required (must be greater than 0)"⟩, [])
      else
        let ccall := GatewayCall.customersCreate (email.getD "") (name.getD "")
        match gwCustomer with
        | .error e => (piCatchResp e, [ccall])
        | .ok cid =>
          let params : PICreateParams :=
            { amount := jsRound (jsMul100 (amount.getD JSNum.nan))
              metadata := spreadSetName md (email.getD "")
              receipt_email := email
              customer := some cid }
          match gwIntent with
          | .error e => (piCatchResp e, [ccall, .paymentIntentsCreate params])
          | .ok _ => (⟨200, none⟩, [ccall, .paymentIntentsCreate params])

/-- The secondary POST /api/create-payment-intent handler
(src/index.js lines 638-667 and src/unnamed/part_000 lines 103-128).
`Number(amount)` of an absent field is NaN.  The handler creates no
customer and forwards the supplied metadata unchanged (`metadata || \x7b\x7d`).
It has no initialization guard: when the client is uninitialized, the
`stripe.paymentIntents.create` access throws inside the try block and the
catch answers with the generic 500. -/
def createPaymentIntentV2 (stripeInit : Bool) (amount : Option JSNum)
    (metadata : Option (List (String × String)))
    (gwIntent : Except StripeError (String × String)) :
    Resp × List GatewayCall :=
  let parsedAmount := amount.getD JSNum.nan
  if !jsIsFinite parsedAmount || jsLeZero parsedAmount then
    (⟨400, some "Invalid amount provided."⟩, [])
  else if !stripeInit then
    (⟨500, some "Failed to create payment intent."⟩, [])
  else
    let params : PICreateParams :=
      { amount := jsRound (jsMul100 parsedAmount)
        metadata := metadata.getD []
        receipt_email := none
        customer := none }
    match gwIntent with
    | .error _ =>
      (⟨500, some "Failed to create payment intent."⟩, [.paymentIntentsCreate params])
    | .ok _ => (⟨200, none⟩, [.paymentIntentsCreate params])

/-! ## POST /api/cancel-payment-intent (src/index.js lines 454-506) -/

/-- The cancellation mutations contained in a gateway-call trace (the
retrieve step is a read, not a mutation). -/
def cancelMutations (t : List GatewayCall) : List GatewayCall :=
  t.filter (fun c => match c with
    | .readersCancelAction _ => true
    | .paymentIntentsCancel _ => true
    | _ => false)

/-- POST /api/cancel-payment-intent.  `retrieve` is the outcome of
`stripe.paymentIntents.retrieve` (ok carries the intent status string),
`cancelAction` of `stripe.terminal.readers.cancelAction` and
`cancelIntent` of `stripe.paymentIntents.cancel`.  Any thrown gateway
error reaches the single catch block, which answers 500 with the error
message. -/
def cancelPaymentIntent (stripeInit : Bool)
    (paymentIntentId readerId : Option String)
    (retrieve : Except StripeError String)
    (cancelAction : Except StripeError Unit)
    (cancelIntent : Except StripeError Unit) :
    Resp × List GatewayCall :=
  if !stripeInit then (stripeNotInitResp, [])
  else if !strTruthy paymentIntentId || !strTruthy readerId then
    (⟨400, some "Both paymentIntentId and readerId are required"⟩, [])
  else
    let pid := paymentIntentId.getD ""
    let rid := readerId.getD ""
    let t0 := [GatewayCall.paymentIntentsRetrieve pid]
    match retrieve with
    | .error e => (⟨500, some e.message⟩, t0)
    | .ok st =>
      if st == "succeeded" then
        (⟨409, some "Payment already succeeded and cannot be canceled"⟩, t0)
      else if st == "cancelled" then
        (⟨200, some "Payment already cancelled"⟩, t0)
      else
        let t1 := t0 ++ [GatewayCall.readersCancelAction rid]
        match cancelAction with
        | .error e => (⟨500, some e.message⟩, t1)
        | .ok _ =>
          let t2 := t1 ++ [GatewayCall.paymentIntentsCancel pid]
          match cancelIntent with
          | .error e => (⟨500, some e.message⟩, t2)
          | .ok _ => (⟨200, none⟩, t2)

/-! ## GET /api/payment-intent-status (src/index.js lines 519-527) -/

/-- GET /api/payment-intent-status.  The handler has no initialization
guard: when the client is uninitialized, `stripe.paymentIntents` throws a
TypeError inside the try block, and the catch answers exactly like a
failed retrieve. -/
def paymentIntentStatus (stripeInit : Bool)
    (retrieve : Except StripeError String) : Resp :=
  if !stripeInit then
    ⟨500, some "Failed to fetch payment intent status"⟩
  else
    match retrieve with
    | .ok _ => ⟨200, none⟩
    | .error _ => ⟨500, some "Failed to fetch payment intent status"⟩

/-! ## POST /webhook (src/index.js lines 319-360) -/

/-- A verified webhook event, as far as the dispatch switch reads it. -/
structure WebhookEvent where
  type : String
deriving DecidableEq, Repr

/-- The response of the webhook handler. -/
inductive WebhookResp where
  /-- 500: the signing secret environment variable is not set. -/
  | secretMissing
  /-- 400: `constructEvent` threw (bad signature, or TypeError from an
  uninitialized client). -/
  | sigError (m : String)
  /-- 200 with body field `received` set to true. -/
  | received
deriving DecidableEq, Repr

/-- HTTP status of a webhook response. -/
def WebhookResp.respStatus : WebhookResp → Nat
  | .secretMissing => 500
  | .sigError _ => 400
  | .received => 200

/-- Whether the event type is one of the named cases of the dispatch
switch (the default branch only logs). -/
def recognizedType (t : String) : Bool :=
  t == "payment_intent.succeeded" || t == "payment_intent.payment_failed"

/-- Result of the webhook handler: the response, and whether control
reached the event-dispatch switch. -/
structure WebhookResult where
  resp : WebhookResp
  dispatched : Bool
deriving DecidableEq, Repr

/-- POST /webhook.  `verify` is the outcome of
`stripe.webhooks.constructEvent`.  The handler has no initialization
guard: when the client is uninitialized, `stripe.webhooks` throws a
TypeError which the signature-verification catch turns into a 400,
before the dispatch switch.  The dispatch switch itself only logs and
cannot throw, so its surrounding catch is unreachable and every verified
event is acknowledged with the received response. -/
def webhookHandler (stripeInit secretSet : Bool)
    (verify : Except String WebhookEvent) : WebhookResult :=
  if !secretSet then ⟨.secretMissing, false⟩
  else if !stripeInit then
    ⟨.sigError "Cannot read properties of undefined", false⟩
  else
    match verify with
    | .error m => ⟨.sigError m, false⟩
    | .ok _ => ⟨.received, true⟩

/-! ## GET /api/products (src/index.js lines 124-158) -/

/-- A price record as the merge logic reads it.  The list handed to the
merge is the gateway response to `prices.list` with `active: true`, so
every element stands for an active price. -/
structure Price where
  id : String
  product : String
  unit_amount : Option Int
  currency : String
deriving DecidableEq, Repr

/-- A product record as the merge logic reads it. -/
structure Product where
  id : String
  name : String
  description : String
  images : List String
deriving DecidableEq, Repr

/-- One element of the array answered by GET /api/products. -/
structure ProductView where
  id : String
  name : String
  description : String
  price : ℚ
  currency : String
  priceId : Option String
  image : String
deriving DecidableEq, Repr

/-- The find predicate of the handler:
`p.product === product.id && p.unit_amount` (a truthiness test, so a
null and a zero unit amount both fail it). -/
def priceMatchCode (prodId : String) (p : Price) : Bool :=
  p.product == prodId &&
    (match p.unit_amount with
     | some n => decide (n ≠ 0)
     | none => false)

/-- The merge of one product with the price list. -/
def productViewOf (prices : List Price) (prod : Product) : ProductView :=
  match prices.find? (priceMatchCode prod.id) with
  | some p =>
    { id := prod.id, name := prod.name, description := prod.description
      price := ((p.unit_amount.getD 0 : ℚ)) / 100
      currency := p.currency
      priceId := some p.id
      image := prod.images.headD "" }
  | none =>
    { id := prod.id, name := prod.name, description := prod.description
      price := 0, currency := "usd", priceId := none
      image := prod.images.headD "" }

/-- The array answered by GET /api/products. -/
def productMap (products : List Product) (prices : List Price) :
    List ProductView :=
  products.map (productViewOf prices)

/-- Modelled from the words of the claim for comparison: the first
active price whose product id matches and whose unit_amount is set
(present, i.e. not null). -/
def specFirstSetPrice (prices : List Price) (prodId : String) : Option Price :=
  prices.find? (fun p => p.product == prodId && p.unit_amount.isSome)

/-- The predicate of the amended claim: unit_amount set and nonzero. -/
def priceSetNonzero (prodId : String) (p : Price) : Bool :=
  p.product == prodId &&
    (p.unit_amount.isSome && !(p.unit_amount == some 0))

/-- Whether the gateway outcome is an error carrying code
invalid_request_error. -/
def gwInvalidReq (gw : Except StripeError Unit) : Bool :=
  match gw with
  | .error e => e.code == some "invalid_request_error"
  | .ok _ => false

/-! ## Theorems -/

/-- C1 (code bug): evaluating the cancel handler at the failing input.
For a retrieved intent whose status is "canceled" (the spelling the
gateway produces, listed in the data model of the specification) the
handler does not take the idempotent 200 branch, because the source
compares against the misspelling "cancelled": it proceeds to cancel the
reader action and then the intent, issuing both mutations the claim says
are not issued.  The misspelled status "cancelled" is the one that takes
the 200-without-mutation branch. -/
theorem C1_cancel_status_canceled_eval :
    cancelPaymentIntent true (some "pi_1") (some "r_1")
        (Except.ok "canceled") (Except.ok ()) (Except.ok ())
      = (⟨200, none⟩,
         [GatewayCall.paymentIntentsRetrieve "pi_1",
          GatewayCall.readersCancelAction "r_1",
          GatewayCall.paymentIntentsCancel "pi_1"]) ∧
    cancelMutations (cancelPaymentIntent true (some "pi_1") (some "r_1")
        (Except.ok "canceled") (Except.ok ()) (Except.ok ())).2
      = [GatewayCall.readersCancelAction "r_1",
         GatewayCall.paymentIntentsCancel "pi_1"] ∧
    cancelPaymentIntent true (some "pi_1") (some "r_1")
        (Except.ok "cancelled") (Except.ok ()) (Except.ok ())
      = (⟨200, some "Payment already cancelled"⟩,
         [GatewayCall.paymentIntentsRetrieve "pi_1"]) ∧
    cancelPaymentIntent true (some "pi_1") (some "r_1")
        (Except.ok "succeeded") (Except.ok ()) (Except.ok ())
      = (⟨409, some "Payment already succeeded and cannot be canceled"⟩,
         [GatewayCall.paymentIntentsRetrieve "pi_1"]) := by
  exact ⟨rfl, rfl, rfl, rfl⟩

/-- C2 (code bug): evaluating the invoice sort at the example input of
the specification.  The comparator subtracts in descending direction and
the expression `statusOrder[s] || 99` maps the rank 0 of "open" to 99,
so the output is open, void, paid, draft instead of the claimed
open, draft, paid, void; an unknown status also sorts first, not last. -/
theorem C2_sortInvoices_eval :
    sortInvoices [⟨"i1", "paid"⟩, ⟨"i2", "open"⟩, ⟨"i3", "void"⟩, ⟨"i4", "draft"⟩]
      = [⟨"i2", "open"⟩, ⟨"i3", "void"⟩, ⟨"i1", "paid"⟩, ⟨"i4", "draft"⟩] ∧
    sortInvoices [⟨"i1", "paid"⟩, ⟨"i2", "weird"⟩]
      = [⟨"i2", "weird"⟩, ⟨"i1", "paid"⟩] := by
  exact ⟨rfl, rfl⟩

/-- C3 (code bug): with the gateway client uninitialized, the webhook
endpoint answers 400 (the TypeError thrown when touching the client is
caught by the signature-verification catch) and the payment-intent-status
endpoint answers 500 with its generic fetch-failure message; neither
returns the fixed not-initialized response, while a guarded endpoint
such as create-location does. -/
theorem C3_uninitialized_eval :
    webhookHandler false true (Except.ok ⟨"payment_intent.succeeded"⟩)
      = ⟨.sigError "Cannot read properties of undefined", false⟩ ∧
    (webhookHandler false true
        (Except.ok ⟨"payment_intent.succeeded"⟩)).resp.respStatus = 400 ∧
    paymentIntentStatus false (Except.ok "succeeded")
      = ⟨500, some "Failed to fetch payment intent status"⟩ ∧
    paymentIntentStatus false (Except.ok "succeeded") ≠ stripeNotInitResp ∧
    createLocation false
        ⟨.str "a", .str "b", .str "c", .str "d", .str "e", .str "f"⟩
        (Except.ok ()) = stripeNotInitResp := by
  exact ⟨rfl, rfl, rfl, by decide, rfl⟩

/-- C5 counterexample: the claimed equivalence "400 iff a field is
absent" fails in both directions.  A body whose label is present but is
the empty string gets 400 although no field is absent, and a body with
all six fields present and truthy still gets 400 when the gateway
rejects the call with code invalid_request_error. -/
theorem C5_falsy_field_counterexample :
    createLocation true
        ⟨.str "", .str "a", .str "b", .str "c", .str "d", .str "e"⟩
        (Except.ok ())
      = ⟨400, some "Missing required address fields"⟩ ∧
    locationFieldAbsent
        ⟨.str "", .str "a", .str "b", .str "c", .str "d", .str "e"⟩ = false ∧
    createLocation true
        ⟨.str "a", .str "b", .str "c", .str "d", .str "e", .str "f"⟩
        (Except.error ⟨some "invalid_request_error", "bad address"⟩)
      = ⟨400, some "Invalid address information provided"⟩ ∧
    locationFieldAbsent
        ⟨.str "a", .str "b", .str "c", .str "d", .str "e", .str "f"⟩ = false := by
  exact ⟨rfl, rfl, rfl, rfl⟩

/-- C5 (amended): with the gateway client initialized, create-location
answers 400 exactly when at least one of the six required fields is
absent or JS-falsy, or the gateway rejects the creation with code
invalid_request_error. -/
theorem C5_createLocation_400_iff (b : LocationBody)
    (gw : Except StripeError Unit) :
    (createLocation true b gw).status = 400 ↔
      (locationFieldsMissing b = true ∨ gwInvalidReq gw = true) := by
  unfold createLocation gwInvalidReq
  cases hm : locationFieldsMissing b <;> cases gw
  · simp_all
    split <;> simp_all
  · simp_all
  · simp_all
  · simp_all

/-- C6: a webhook request whose signature verification throws is
rejected with 400 and never reaches the event-dispatch switch, and a
verified request whose event type is not one of the recognized cases is
still acknowledged with the received response and success status. -/
theorem C6_webhook_paths (m t : String) (h : recognizedType t = false) :
    recognizedType t = false ∧
    webhookHandler true true (Except.error m) = ⟨.sigError m, false⟩ ∧
    (WebhookResp.sigError m).respStatus = 400 ∧
    webhookHandler true true (Except.ok ⟨t⟩) = ⟨.received, true⟩ ∧
    WebhookResp.received.respStatus = 200 := by
  exact ⟨h, rfl, rfl, rfl, rfl⟩

/-- C6 witness at a concrete tampered signature and a concrete
unrecognized event type. -/
theorem C6_webhook_paths_witness :
    recognizedType "charge.refunded" = false ∧
    (recognizedType "charge.refunded" = false ∧
     webhookHandler true true (Except.error "No signatures found")
       = ⟨.sigError "No signatures found", false⟩ ∧
     (WebhookResp.sigError "No signatures found").respStatus = 400 ∧
     webhookHandler true true (Except.ok ⟨"charge.refunded"⟩)
       = ⟨.received, true⟩ ∧
     WebhookResp.received.respStatus = 200) :=
  ⟨by decide, C6_webhook_paths "No signatures found" "charge.refunded" (by decide)⟩

/-- Helper: whenever the primary create-payment-intent handler records an
intent-creation call, its parameters are the rounded minor-unit amount
and the spread metadata with the name overwritten by the email, and the
email field of the supplied metadata was truthy. -/
theorem picParams_of_mem (a : Option JSNum) (md : List (String × String))
    (gwc : Except StripeError String)
    (gwi : Except StripeError (String × String)) (p : PICreateParams)
    (hp : GatewayCall.paymentIntentsCreate p ∈
      (createPaymentIntentMain true a (some md) gwc gwi).2) :
    p.amount = jsRound (jsMul100 (a.getD JSNum.nan)) ∧
    p.metadata = spreadSetName md ((metaLookup md "email").getD "") ∧
    strTruthy (metaLookup md "email") = true := by
  rcases a with _ | av
  · unfold createPaymentIntentMain at hp
    cases hname : strTruthy (metaLookup md "name") <;>
      cases hemail : strTruthy (metaLookup md "email") <;>
        simp [hname, hemail] at hp
  · unfold createPaymentIntentMain at hp
    cases hname : strTruthy (metaLookup md "name") <;>
      cases hemail : strTruthy (metaLookup md "email") <;>
        simp [hname, hemail] at hp
    by_cases hamt : (jsTruthyNum av = false ∨ jsLeZero av = true)
    · simp [hamt] at hp
    · rcases gwc with e | cid
      · simp [hamt] at hp
      · rcases gwi with e | pr <;> simp [hamt] at hp <;> subst hp <;>
          exact ⟨rfl, rfl, rfl⟩

/-- Helper: whenever the secondary create-payment-intent handler records
an intent-creation call, its amount is the rounded minor-unit amount. -/
theorem v2Amount_of_mem (a : Option JSNum)
    (md : Option (List (String × String)))
    (gwi : Except StripeError (String × String)) (p : PICreateParams)
    (hp : GatewayCall.paymentIntentsCreate p ∈
      (createPaymentIntentV2 true a md gwi).2) :
    p.amount = jsRound (jsMul100 (a.getD JSNum.nan)) := by
  unfold createPaymentIntentV2 at hp
  by_cases hc : (!jsIsFinite (a.getD JSNum.nan) ||
      jsLeZero (a.getD JSNum.nan)) = true
  · simp [hc] at hp
  · rcases gwi with e | pr <;> simp [hc] at hp <;> subst hp <;> rfl

/-- Helper: looking up name in the spread object always yields the
overwriting email value. -/
theorem metaLookup_spreadSetName (md : List (String × String)) (e : String) :
    metaLookup (spreadSetName md e) "name" = some e := by
  unfold metaLookup spreadSetName
  simp [List.find?]

/-- C10: a create-payment-intent request whose body has no metadata
object makes the destructuring throw, so the primary handler answers the
generic 500 failure, never the 400 field-validation response, and issues
no gateway call. -/
theorem C10_missing_metadata_500 (a : Option JSNum)
    (gwc : Except StripeError String)
    (gwi : Except StripeError (String × String)) :
    createPaymentIntentMain true a none gwc gwi
      = (⟨500, some "Failed to create payment intent"⟩, []) ∧
    (createPaymentIntentMain true a none gwc gwi).1.status ≠ 400 := by
  refine ⟨rfl, ?_⟩
  have h5 : (createPaymentIntentMain true a none gwc gwi).1.status = 500 := rfl
  rw [h5]
  decide

/-- C4 counterexample: in the primary handler the validation
`!amount || amount <= 0` does not reject positive infinity, so a request
with amount Infinity and a cooperative gateway is answered 200, a
customer is created and the intent-creation call is issued with amount
Infinity; the claim says every non-finite amount is answered 400. -/
theorem C4_infinity_counterexample :
    createPaymentIntentMain true (some JSNum.posInf)
        (some [("name", "N"), ("email", "E")])
        (Except.ok "cus_1") (Except.ok ("pi_1", "cs_1"))
      = (⟨200, none⟩,
         [GatewayCall.customersCreate "E" "N",
          GatewayCall.paymentIntentsCreate
            ⟨JSNum.posInf, [("email", "E"), ("name", "E")],
             some "E", some "cus_1"⟩]) ∧
    (createPaymentIntentMain true (some JSNum.posInf)
        (some [("name", "N"), ("email", "E")])
        (Except.ok "cus_1") (Except.ok ("pi_1", "cs_1"))).1.status ≠ 400 := by
  exact ⟨rfl, by decide⟩

/-- C4 (amended): the Number.isFinite-validated secondary handler
rejects every non-finite or nonpositive amount with 400 and no gateway
call; the primary handler rejects NaN and every amount less than or
equal to zero with 400 and no gateway call (positive infinity passes its
validation); and every intent-creation call either handler issues
carries the minor-unit amount round of amount times 100. -/
theorem C4_amount_validation_amended (a : JSNum) (md : List (String × String))
    (gwc : Except StripeError String)
    (gwi : Except StripeError (String × String))
    (hname : strTruthy (metaLookup md "name") = true)
    (hemail : strTruthy (metaLookup md "email") = true) :
    (jsIsFinite a = false ∨ jsLeZero a = true →
      createPaymentIntentV2 true (some a) (some md) gwi
        = (⟨400, some "Invalid amount provided."⟩, [])) ∧
    (a = JSNum.nan ∨ jsLeZero a = true →
      createPaymentIntentMain true (some a) (some md) gwc gwi
        = (⟨400, some "Valid amount is required (must be greater than 0)"⟩,
           [])) ∧
    (∀ p : PICreateParams,
      GatewayCall.paymentIntentsCreate p ∈
          (createPaymentIntentMain true (some a) (some md) gwc gwi).2 →
        p.amount = jsRound (jsMul100 a)) ∧
    (∀ p : PICreateParams,
      GatewayCall.paymentIntentsCreate p ∈
          (createPaymentIntentV2 true (some a) (some md) gwi).2 →
        p.amount = jsRound (jsMul100 a)) := by
  refine ⟨?_, ?_, ?_, ?_⟩
  · intro h
    have hc : (!jsIsFinite a || jsLeZero a) = true := by
      rcases h with h | h <;> simp [h]
    unfold createPaymentIntentV2
    simp [hc]
  · intro h
    have hc : (jsTruthyNum a = false ∨ jsLeZero a = true) := by
      rcases h with h | h
      · subst h; exact Or.inl rfl
      · exact Or.inr h
    unfold createPaymentIntentMain
    simp [hname, hemail, hc]
  · intro p hp
    simpa using (picParams_of_mem (some a) md gwc gwi p hp).1
  · intro p hp
    simpa using v2Amount_of_mem (some a) (some md) gwi p hp

/-- C4 witness at the concrete amount -2, which both handlers reject
with 400 and no gateway call. -/
theorem C4_amount_validation_witness :
    strTruthy (metaLookup [("name", "N"), ("email", "E")] "name") = true ∧
    strTruthy (metaLookup [("name", "N"), ("email", "E")] "email") = true ∧
    createPaymentIntentV2 true (some (JSNum.fin (-2)))
        (some [("name", "N"), ("email", "E")]) (Except.ok ("pi_1", "cs_1"))
      = (⟨400, some "Invalid amount provided."⟩, []) ∧
    createPaymentIntentMain true (some (JSNum.fin (-2)))
        (some [("name", "N"), ("email", "E")]) (Except.ok "cus_1")
        (Except.ok ("pi_1", "cs_1"))
      = (⟨400, some "Valid amount is required (must be greater than 0)"⟩, []) :=
  ⟨by decide, by decide,
   (C4_amount_validation_amended (JSNum.fin (-2)) [("name", "N"), ("email", "E")]
      (Except.ok "cus_1") (Except.ok ("pi_1", "cs_1")) (by decide) (by decide)).1
     (Or.inr (by decide)),
   (C4_amount_validation_amended (JSNum.fin (-2)) [("name", "N"), ("email", "E")]
      (Except.ok "cus_1") (Except.ok ("pi_1", "cs_1")) (by decide)
      (by decide)).2.1 (Or.inr (by decide))⟩

/-- Helper: List.find? only depends on the pointwise behaviour of its
predicate. -/
theorem find?_congrPred {α : Type} (p q : α → Bool) (h : ∀ a, p a = q a) :
    ∀ l : List α, l.find? p = l.find? q := by
  intro l
  induction l with
  | nil => rfl
  | cons x xs ih => simp only [List.find?, h x, ih]

/-- Helper: the find predicate of the products handler (a truthiness
test on unit_amount) agrees with the set-and-nonzero predicate. -/
theorem priceMatchCode_eq_setNonzero (prodId : String) (p : Price) :
    priceMatchCode prodId p = priceSetNonzero prodId p := by
  unfold priceMatchCode priceSetNonzero
  cases hu : p.unit_amount with
  | none => simp [hu]
  | some n => by_cases hn : n = 0 <;> simp [hu, hn]

/-- C7 counterexample: a price whose unit_amount is set but equal to
zero is skipped by the truthiness test of the handler, so the merged
product falls back to currency usd, while the claim (first matching
price with unit_amount set) predicts the currency of that price. -/
theorem C7_zero_unit_amount_counterexample :
    (productViewOf [⟨"price_0", "prod_1", some 0, "eur"⟩]
        ⟨"prod_1", "Widget", "d", []⟩).currency = "usd" ∧
    (productViewOf [⟨"price_0", "prod_1", some 0, "eur"⟩]
        ⟨"prod_1", "Widget", "d", []⟩).price = 0 ∧
    specFirstSetPrice [⟨"price_0", "prod_1", some 0, "eur"⟩] "prod_1"
      = some ⟨"price_0", "prod_1", some 0, "eur"⟩ ∧
    ("usd" : String) ≠ "eur" := by
  exact ⟨rfl, rfl, rfl, by decide⟩

/-- C7 (amended): the merged price and currency of a product come from
the first price whose product id matches and whose unit_amount is set
and nonzero: price is its unit_amount divided by 100 and currency its
currency; if no such price exists the defaults 0 and usd are used. -/
theorem C7_products_price_merge (prices : List Price) (prod : Product) :
    (productViewOf prices prod).price =
      (match prices.find? (priceSetNonzero prod.id) with
       | some p => ((p.unit_amount.getD 0 : ℚ)) / 100
       | none => 0) ∧
    (productViewOf prices prod).currency =
      (match prices.find? (priceSetNonzero prod.id) with
       | some p => p.currency
       | none => "usd") := by
  have hfind : prices.find? (priceMatchCode prod.id)
      = prices.find? (priceSetNonzero prod.id) :=
    find?_congrPred _ _ (priceMatchCode_eq_setNonzero prod.id) prices
  unfold productViewOf
  rw [hfind]
  cases prices.find? (priceSetNonzero prod.id) <;> simp

/-- C8 counterexample: a successful request to the secondary
create-payment-intent handler creates the intent without any customer
creation, so it is not the case that every successful
create-payment-intent request creates a new customer record first. -/
theorem C8_v2_no_customer_counterexample :
    (createPaymentIntentV2 true (some (JSNum.fin 5))
        (some [("name", "N"), ("email", "E")])
        (Except.ok ("pi_1", "cs_1"))).1.status = 200 ∧
    ((createPaymentIntentV2 true (some (JSNum.fin 5))
        (some [("name", "N"), ("email", "E")])
        (Except.ok ("pi_1", "cs_1"))).2.filter
          GatewayCall.isCustomersCreate) = [] ∧
    (createPaymentIntentV2 true (some (JSNum.fin 5))
        (some [("name", "N"), ("email", "E")])
        (Except.ok ("pi_1", "cs_1"))).2 ≠ [] := by
  refine ⟨rfl, rfl, ?_⟩
  decide

/-- C8 (amended): in the primary handler every request answered with
success issued exactly two gateway calls, the customer creation strictly
before the intent creation, and the created intent references the
customer id the gateway returned; the secondary handler issues no
customer creation at all. -/
theorem C8_customer_before_intent (a : Option JSNum)
    (md : List (String × String)) (gwc : Except StripeError String)
    (gwi : Except StripeError (String × String))
    (h : (createPaymentIntentMain true a (some md) gwc gwi).1.status = 200) :
    (∃ cid p, gwc = Except.ok cid ∧ p.customer = some cid ∧
      (createPaymentIntentMain true a (some md) gwc gwi).2
        = [GatewayCall.customersCreate ((metaLookup md "email").getD "")
             ((metaLookup md "name").getD ""),
           GatewayCall.paymentIntentsCreate p]) ∧
    (∀ c ∈ (createPaymentIntentV2 true a (some md) gwi).2,
      GatewayCall.isCustomersCreate c = false) := by
  constructor
  · rcases a with _ | av
    · unfold createPaymentIntentMain at h
      cases hname : strTruthy (metaLookup md "name") <;>
        cases hemail : strTruthy (metaLookup md "email") <;>
          simp [hname, hemail] at h
    · unfold createPaymentIntentMain at h ⊢
      cases hname : strTruthy (metaLookup md "name") <;>
        cases hemail : strTruthy (metaLookup md "email") <;>
          simp [hname, hemail] at h ⊢
      by_cases hamt : (jsTruthyNum av = false ∨ jsLeZero av = true)
      · simp [hamt] at h
      · rcases gwc with e | cid
        · simp [hamt, piCatchResp] at h
          split at h <;> simp at h
        · rcases gwi with e | pr
          · simp [hamt, piCatchResp] at h
            split at h <;> simp at h
          · simp [hamt]
  · intro c hc
    unfold createPaymentIntentV2 at hc
    by_cases hv : (!jsIsFinite (a.getD JSNum.nan) ||
        jsLeZero (a.getD JSNum.nan)) = true
    · simp [hv] at hc
    · rcases gwi with e | pr <;> simp [hv] at hc <;> subst hc <;> rfl

/-- C8 witness at a concrete valid request with a cooperative gateway. -/
theorem C8_customer_before_intent_witness :
    (createPaymentIntentMain true (some (JSNum.fin 5))
        (some [("name", "N"), ("email", "E")]) (Except.ok "cus_1")
        (Except.ok ("pi_1", "cs_1"))).1.status = 200 ∧
    ((∃ cid p, (Except.ok "cus_1" : Except StripeError String) = Except.ok cid ∧
        p.customer = some cid ∧
        (createPaymentIntentMain true (some (JSNum.fin 5))
          (some [("name", "N"), ("email", "E")]) (Except.ok "cus_1")
          (Except.ok ("pi_1", "cs_1"))).2
          = [GatewayCall.customersCreate
               ((metaLookup [("name", "N"), ("email", "E")] "email").getD "")
               ((metaLookup [("name", "N"), ("email", "E")] "name").getD ""),
             GatewayCall.paymentIntentsCreate p]) ∧
     (∀ c ∈ (createPaymentIntentV2 true (some (JSNum.fin 5))
          (some [("name", "N"), ("email", "E")])
          (Except.ok ("pi_1", "cs_1"))).2,
        GatewayCall.isCustomersCreate c = false)) :=
  ⟨rfl, C8_customer_before_intent (some (JSNum.fin 5))
    [("name", "N"), ("email", "E")] (Except.ok "cus_1")
    (Except.ok ("pi_1", "cs_1")) rfl⟩

/-- C9: whenever the primary create-payment-intent handler issues the
intent-creation call, the name entry of the forwarded metadata object
equals the supplied email address, overwriting any supplied name. -/
theorem C9_metadata_name_overwrite (a : Option JSNum)
    (md : List (String × String)) (gwc : Except StripeError String)
    (gwi : Except StripeError (String × String)) (p : PICreateParams)
    (hp : GatewayCall.paymentIntentsCreate p ∈
      (createPaymentIntentMain true a (some md) gwc gwi).2) :
    metaLookup p.metadata "name" = metaLookup md "email" := by
  obtain ⟨-, hmeta, hemail⟩ := picParams_of_mem a md gwc gwi p hp
  obtain ⟨e, he⟩ : ∃ e, metaLookup md "email" = some e := by
    cases hme : metaLookup md "email"
    · rw [hme] at hemail
      exact absurd hemail (by decide)
    · exact ⟨_, rfl⟩
  rw [hmeta, he]
  simpa using metaLookup_spreadSetName md e

/-- C9 witness at a concrete request whose metadata carries both a name
and an email. -/
theorem C9_metadata_name_overwrite_witness :
    GatewayCall.paymentIntentsCreate
        ⟨jsRound (jsMul100 (JSNum.fin 5)),
         [("email", "E"), ("name", "E")], some "E", some "cus_1"⟩ ∈
      (createPaymentIntentMain true (some (JSNum.fin 5))
        (some [("name", "N"), ("email", "E")]) (Except.ok "cus_1")
        (Except.ok ("pi_1", "cs_1"))).2 ∧
    metaLookup [("email", "E"), ("name", "E")] "name"
      = metaLookup [("name", "N"), ("email", "E")] "email" := by
  have ht : (createPaymentIntentMain true (some (JSNum.fin 5))
      (some [("name", "N"), ("email", "E")]) (Except.ok "cus_1")
      (Except.ok ("pi_1", "cs_1"))).2
      = [GatewayCall.customersCreate "E" "N",
         GatewayCall.paymentIntentsCreate
           ⟨jsRound (jsMul100 (JSNum.fin 5)),
            [("email", "E"), ("name", "E")], some "E", some "cus_1"⟩] := rfl
  refine ⟨?_, ?_⟩
  · rw [ht]
    simp
  · exact C9_metadata_name_overwrite (some (JSNum.fin 5))
      [("name", "N"), ("email", "E")] (Except.ok "cus_1")
      (Except.ok ("pi_1", "cs_1"))
      ⟨jsRound (jsMul100 (JSNum.fin 5)),
       [("email", "E"), ("name", "E")], some "E", some "cus_1"⟩
      (by rw [ht]; simp)

end PosStripe
